import Mathlib

/-
Verification of the ticketmap repository's geocoding / caching / marker
pipeline (src/generate.py, with src/generate_bkp_27012026.py as the older
near-duplicate pipeline).

Shallow embedding conventions:
  * Python floats (coordinates, distances, timestamps) are modelled as ℚ.
  * The geocoding provider (geopy Nominatim, an external black box) is a
    parameter `geolocator : String → Option Coords`; a `none` answer covers
    both "no location found" and "an exception was raised during this
    attempt" — the source treats both identically (the variant failed).
  * The great-circle distance `geodesic(a, b).km` (external library) is a
    parameter `dist : Coords → Coords → ℚ`.
  * The mutable geo-cache dictionary is passed as an explicit value of type
    `GeoCache := String → Option GeoEntry`; every function that mutates it
    returns the updated cache.
  * Geocoding calls issued by a function are returned as an explicit list
    of query strings (`calls`), so "no further call is made" is provable.
  * Python string operations are re-implemented structurally over the
    character list of the string, so that all definitions evaluate inside
    the kernel.
-/

namespace TicketMap

/-! ### Python string primitives -/

/-- Python `str.lower()` (ASCII case folding, which covers the statuses and
addresses this program handles). -/
def py_lower (s : String) : String := ⟨s.data.map Char.toLower⟩

/-- Python `str.replace(" ", "")`: remove every space character. -/
def py_remove_spaces (s : String) : String := ⟨s.data.filter (fun c => !(c = ' '))⟩

/-- Python's whitespace set (the characters `str.strip` removes): the ASCII
control whitespace 0x09-0x0D, the separator controls 0x1C-0x1F, the space,
NEL 0x85, and the Unicode space, line and paragraph separators. -/
def py_isspace (c : Char) : Bool :=
  (9 ≤ c.toNat && c.toNat ≤ 13) || (28 ≤ c.toNat && c.toNat ≤ 32) ||
  c.toNat = 133 || c.toNat = 160 || c.toNat = 5760 ||
  (8192 ≤ c.toNat && c.toNat ≤ 8202) || c.toNat = 8232 || c.toNat = 8233 ||
  c.toNat = 8239 || c.toNat = 8287 || c.toNat = 12288

/-- Python `str.strip()`: drop leading and trailing whitespace. -/
def py_strip (s : String) : String :=
  ⟨((s.data.dropWhile py_isspace).reverse.dropWhile py_isspace).reverse⟩

/-- Does the first character list start with the second one? -/
def listStartsWith : List Char → List Char → Bool
  | _, [] => true
  | [], _ :: _ => false
  | a :: as, b :: bs => a = b && listStartsWith as bs

/-- Does the character list contain `pat` as a contiguous sublist? -/
def listContainsSub (pat : List Char) : List Char → Bool
  | [] => listStartsWith [] pat
  | c :: rest => listStartsWith (c :: rest) pat || listContainsSub pat rest

/-- Python `pat in s` (substring containment). -/
def containsSubstr (s pat : String) : Bool := listContainsSub pat.data s.data

/-- Python `str.split(sep)` for a one-character separator: always returns a
nonempty list, keeps empty pieces. -/
def splitOnChar (sep : Char) : List Char → List (List Char)
  | [] => [[]]
  | c :: rest =>
    let r := splitOnChar sep rest
    if c = sep then [] :: r
    else
      match r with
      | [] => [[c]]
      | h :: t => (c :: h) :: t

/-! ### Data model -/

/-- A (latitude, longitude) pair. -/
abbrev Coords : Type := ℚ × ℚ

/-- A persisted geo-cache value.  `legacy` is the old 2-element numeric
`(lat, lon)` form; `modern` is the 3-element `(coords, is_approx, ortsteil)`
form the program writes; `malformed` stands for any other JSON value, which
the cache check in `get_coordinates_extended` falls through (and which the
program itself never writes). -/
inductive GeoEntry where
  | legacy (lat lon : ℚ)
  | modern (coords : Option Coords) (isApprox : Bool) (ortsteil : Option String)
  | malformed
deriving DecidableEq

/-- The geo-cache dictionary: address string → stored entry. -/
abbrev GeoCache : Type := String → Option GeoEntry

/-- Python `geo_cache[address] = v`. -/
def cacheInsert (geo_cache : GeoCache) (key : String) (v : GeoEntry) : GeoCache :=
  fun k => if k = key then some v else geo_cache k

/-- One ticket record as consumed by the pipeline (fields `Id`, `Address`,
`CustomerName`, `Title`, `Status` of the API dictionaries). -/
structure Ticket where
  id : String
  address : String
  customerName : String
  title : String
  status : String
deriving DecidableEq

/-- A map marker as built by `process_tickets_to_markers`. -/
structure Marker where
  coords : Coords
  popup : String
  tooltip : String
  color : String
  ticket_id : String
deriving DecidableEq

/-- A warning-list entry as built by `process_tickets_to_markers`
(`reason` is `"approximate"` or `"not_found"`). -/
structure Warning where
  ticket_id : String
  customer_name : String
  address : String
  reason : String
  ortsteil : Option String
deriving DecidableEq

/-- One locale's entry of the `LANG_TEXT` table (`typ` is the `'type'` key). -/
structure LangText where
  warning_head : String
  approx_marker : String
  not_found_marker : String
  layer_tickets : String
  fullscreen : String
  fullscreen_exit : String
  generated_at : String
  ticket : String
  customer : String
  address : String
  typ : String
deriving DecidableEq

/-- `LANG_TEXT['de']`. -/
def LANG_TEXT_de : LangText where
  warning_head := "Achtung: Folgende Tickets konnten nicht exakt lokalisiert werden:"
  approx_marker := "(nur Gemeinde lokalisiert)"
  not_found_marker := "(keine Lokalisierung möglich)"
  layer_tickets := "Tickets"
  fullscreen := "Vollbildmodus"
  fullscreen_exit := "Vollbild verlassen"
  generated_at := "Generiert um"
  ticket := "Ticket"
  customer := "Kunde"
  address := "Adresse"
  typ := "Art"

/-- `LANG_TEXT['it']`. -/
def LANG_TEXT_it : LangText where
  warning_head := "Attenzione: I seguenti Ticket non sono stati localizzati esattamente:"
  approx_marker := "(solo il comune localizzato)"
  not_found_marker := "(localizzazione non riuscita)"
  layer_tickets := "Ticket"
  fullscreen := "Schermo intero"
  fullscreen_exit := "Esci da schermo intero"
  generated_at := "Generato alle"
  ticket := "Ticket"
  customer := "Cliente"
  address := "Indirizzo"
  typ := "Tipo"

/-- `LANG_TEXT['en']`. -/
def LANG_TEXT_en : LangText where
  warning_head := "Warning: The following Tickets could not be located exactly:"
  approx_marker := "(only municipality found)"
  not_found_marker := "(location failed)"
  layer_tickets := "Tickets"
  fullscreen := "Fullscreen"
  fullscreen_exit := "Exit Fullscreen"
  generated_at := "Generated at"
  ticket := "Ticket"
  customer := "Customer"
  address := "Address"
  typ := "Type"

/-- Python `LANG_TEXT.get(language, LANG_TEXT['de'])`. -/
def lang_text_get (language : String) : LangText :=
  if language = "de" then LANG_TEXT_de
  else if language = "it" then LANG_TEXT_it
  else if language = "en" then LANG_TEXT_en
  else LANG_TEXT_de

/-- The `STATUS_COLOR` table of src/generate.py. -/
def STATUS_COLOR : List (String × String) :=
  [("offen", "red"), ("in bearbeitung", "orange"), ("erledigt", "green")]

def DEFAULT_MARKER_COLOR : String := "blue"

def APPROXIMATE_MARKER_COLOR : String := "black"

/-- Python `dict.get` on an association list with string keys. -/
def assoc_get : List (String × String) → String → Option String
  | [], _ => none
  | (k, v) :: rest, key => if key = k then some v else assoc_get rest key

/-! ### Status normalisation and marker color (src/generate.py:165-183) -/

/-- `normalize_status(status)`: lower-case, strip all spaces, then substring
match in priority order erledigt > bearbeitung > offen; `none` models the
Python `None` returned when nothing matches. -/
def normalize_status (status : String) : Option String :=
  let s := py_remove_spaces (py_lower status)
  if containsSubstr s "erledigt" then some "erledigt"
  else if containsSubstr s "bearbeitung" then some "in bearbeitung"
  else if containsSubstr s "offen" then some "offen"
  else none

/-- `get_marker_color(ticket, is_approximate)`: the approximate color
overrides everything, otherwise `STATUS_COLOR.get(normalize_status(status),
DEFAULT_MARKER_COLOR)` where the status is read from the ticket and
stripped. -/
def get_marker_color (ticket : Ticket) (is_approximate : Bool) : String :=
  if is_approximate then APPROXIMATE_MARKER_COLOR
  else
    match normalize_status (py_strip ticket.status) with
    | some key => (assoc_get STATUS_COLOR key).getD DEFAULT_MARKER_COLOR
    | none => DEFAULT_MARKER_COLOR

/-! ### Geocoding resolver (src/generate.py:186-260) -/

/-- `extract_city(address)`: the text after the last comma, stripped;
`none` when the address has no comma. -/
def extract_city (address : String) : Option String :=
  if address.data.contains ',' then
    some (py_strip ⟨(splitOnChar ',' address.data).getLastD []⟩)
  else none

/-- The result of one resolver call: the returned `(coords, is_approximate,
municipality)` triple, the geo-cache after the call, and the list of
geocoding queries issued during the call (in order). -/
structure ResolveResult where
  coords : Option Coords
  isApprox : Bool
  ortsteil : Option String
  cache : GeoCache
  calls : List String

/-- The `for variant in variants` loop: try each query in order, stop at the
first success.  Returns the queries actually issued and the first hit. -/
def try_variants (geolocator : String → Option Coords) :
    List String → List String × Option Coords
  | [] => ([], none)
  | v :: vs =>
    match geolocator v with
    | some c => ([v], some c)
    | none =>
      let r := try_variants geolocator vs
      (v :: r.1, r.2)

/-- The variant list built in `get_coordinates_extended`. -/
def variants_of (address : String) : List String :=
  [address ++ ", South Tyrol, Italy", address ++ ", Südtirol, Italien", address]

/-- The cache-miss path of `get_coordinates_extended` (everything after the
`if address in geo_cache` block): try the three variants, then fall back to
geocoding the extracted municipality, writing the cache on success only.
The source guards the fallback with Python truthiness (`if ortsteil:`), so
an empty derived locality — an address with a trailing comma — skips the
fallback exactly like a missing one. -/
def geocode_fresh (address : String) (geo_cache : GeoCache)
    (geolocator : String → Option Coords) : ResolveResult :=
  match try_variants geolocator (variants_of address) with
  | (calls, some coords) =>
    { coords := some coords, isApprox := false, ortsteil := none,
      cache := cacheInsert geo_cache address (GeoEntry.modern (some coords) false none),
      calls := calls }
  | (calls, none) =>
    match extract_city address with
    | some ortsteil =>
      if ortsteil = "" then
        { coords := none, isApprox := false, ortsteil := none,
          cache := geo_cache, calls := calls }
      else
        let q := ortsteil ++ ", South Tyrol, Italy"
        match geolocator q with
        | some coords =>
          { coords := some coords, isApprox := true, ortsteil := some ortsteil,
            cache := cacheInsert geo_cache address (GeoEntry.modern (some coords) true (some ortsteil)),
            calls := calls ++ [q] }
        | none =>
          { coords := none, isApprox := false, ortsteil := none,
            cache := geo_cache, calls := calls ++ [q] }
    | none =>
      { coords := none, isApprox := false, ortsteil := none,
        cache := geo_cache, calls := calls }

/-- `get_coordinates_extended(address, geo_cache, geolocator)`: cache hit on
the legacy 2-field form upgrades the entry in place; cache hit on the
3-field form returns it verbatim; any other cache entry, or no entry, falls
through to the fresh geocoding path. -/
def get_coordinates_extended (address : String) (geo_cache : GeoCache)
    (geolocator : String → Option Coords) : ResolveResult :=
  match geo_cache address with
  | some (GeoEntry.legacy lat lon) =>
    { coords := some (lat, lon), isApprox := false, ortsteil := none,
      cache := cacheInsert geo_cache address (GeoEntry.modern (some (lat, lon)) false none),
      calls := [] }
  | some (GeoEntry.modern coords isApprox ortsteil) =>
    { coords := coords, isApprox := isApprox, ortsteil := ortsteil,
      cache := geo_cache, calls := [] }
  | some GeoEntry.malformed => geocode_fresh address geo_cache geolocator
  | none => geocode_fresh address geo_cache geolocator

/-! ### Ticket filter and marker builder (src/generate.py:263-360) -/

/-- Python `html.escape` with its default `quote=True`. -/
def html_escape_char (c : Char) : String :=
  if c = '&' then "&amp;"
  else if c = '<' then "&lt;"
  else if c = '>' then "&gt;"
  else if c = '"' then "&quot;"
  else if c = Char.ofNat 39 then "&#x27;"
  else String.singleton c

/-- Python `html.escape(s)`. -/
def html_escape (s : String) : String := String.join (s.data.map html_escape_char)

/-- The popup f-string of src/generate.py:304-323, with its literal
whitespace. -/
def ticket_popup_html (lang : LangText)
    (ticket_url ticket_id customer_name address title : String) : String :=
  "\n" ++
  "                <div style=\"width:300px;\">\n" ++
  "                    <table style=\"width:100%; border-collapse:collapse;\">\n" ++
  "                        <tr style=\"background:#f0f0f0; font-weight:bold;\">\n" ++
  "                            <td style=\"padding:5px; border:1px solid #ccc;\">" ++ lang.ticket ++ "</td>\n" ++
  "                            <td style=\"padding:5px; border:1px solid #ccc;\">" ++ lang.customer ++ "</td>\n" ++
  "                            <td style=\"padding:5px; border:1px solid #ccc;\">" ++ lang.address ++ "</td>\n" ++
  "                            <td style=\"padding:5px; border:1px solid #ccc;\">" ++ lang.typ ++ "</td>\n" ++
  "                        </tr>\n" ++
  "                        <tr>\n" ++
  "                            <td style=\"padding:5px; border:1px solid #ccc;\">\n" ++
  "                                <a href=\"" ++ ticket_url ++ "\" target=\"_blank\">" ++ ticket_id ++ "</a>\n" ++
  "                            </td>\n" ++
  "                            <td style=\"padding:5px; border:1px solid #ccc;\">" ++ html_escape customer_name ++ "</td>\n" ++
  "                            <td style=\"padding:5px; border:1px solid #ccc;\">" ++ html_escape address ++ "</td>\n" ++
  "                            <td style=\"padding:5px; border:1px solid #ccc;\">" ++ html_escape title ++ "</td>\n" ++
  "                        </tr>\n" ++
  "                    </table>\n" ++
  "                </div>\n" ++
  "                "

/-- The result of `process_tickets_to_markers`: markers, warnings, the
geo-cache after the run, and all geocoding queries issued. -/
structure ProcessResult where
  markers : List Marker
  warnings : List Warning
  cache : GeoCache
  calls : List String

/-- `process_tickets_to_markers(data, center_point, radius_km, geo_cache,
language)`: per ticket, resolve the address (threading the cache), drop the
ticket silently when it is farther than `radius_km` from the center, build a
marker otherwise, and record "approximate" / "not_found" warnings. -/
def process_tickets_to_markers (geolocator : String → Option Coords)
    (dist : Coords → Coords → ℚ) (center_point : Coords) (radius_km : ℚ)
    (language : String) : List Ticket → GeoCache → ProcessResult
  | [], geo_cache => { markers := [], warnings := [], cache := geo_cache, calls := [] }
  | ticket :: rest, geo_cache =>
    let lang := lang_text_get language
    let r := get_coordinates_extended ticket.address geo_cache geolocator
    match r.coords with
    | some coords =>
      if dist center_point coords ≤ radius_km then
        let ticket_url := "https://tickets.netixx.it:10443/Ticket/view/id/" ++ ticket.id
        let marker : Marker :=
          { coords := coords,
            popup := ticket_popup_html lang ticket_url ticket.id ticket.customerName
              ticket.address ticket.title,
            tooltip := ticket.id ++ " - " ++ ticket.customerName,
            color := get_marker_color ticket r.isApprox,
            ticket_id := ticket.id }
        let ws : List Warning :=
          if r.isApprox then
            [{ ticket_id := ticket.id, customer_name := ticket.customerName,
               address := ticket.address, reason := "approximate", ortsteil := r.ortsteil }]
          else []
        let rr := process_tickets_to_markers geolocator dist center_point radius_km
          language rest r.cache
        { markers := marker :: rr.markers, warnings := ws ++ rr.warnings,
          cache := rr.cache, calls := r.calls ++ rr.calls }
      else
        let rr := process_tickets_to_markers geolocator dist center_point radius_km
          language rest r.cache
        { markers := rr.markers, warnings := rr.warnings,
          cache := rr.cache, calls := r.calls ++ rr.calls }
    | none =>
      let rr := process_tickets_to_markers geolocator dist center_point radius_km
        language rest r.cache
      { markers := rr.markers,
        warnings := { ticket_id := ticket.id, customer_name := ticket.customerName,
                      address := ticket.address, reason := "not_found",
                      ortsteil := none } :: rr.warnings,
        cache := rr.cache, calls := r.calls ++ rr.calls }

/-! ### API ticket cache (src/generate.py:121-162) -/

/-- The `timestamp` field of the persisted API cache: absent (or falsy),
present but not ISO-8601-parseable, or parsed to a point in time (modelled
as rational seconds since the epoch). -/
inductive CacheStamp where
  | missing
  | malformed
  | parsed (t : ℚ)
deriving DecidableEq

/-- The persisted API cache file content (when the file is non-empty). -/
structure ApiSnapshot where
  stamp : CacheStamp
  data : List Ticket
deriving DecidableEq

/-- The observable outcome of `get_ticket_data`: the returned ticket list,
the API cache file content after the call, and whether a fresh API fetch
was performed. -/
structure FetchResult where
  data : List Ticket
  cache : Option ApiSnapshot
  fetched : Bool
deriving DecidableEq

/-- `get_ticket_data(token, use_cache, cache_timeout_hours)`.
`fetch_data_from_api` is the (black-box) result a fresh API fetch would
return, `now` is the current time in rational seconds, `api_cache` is the
loaded cache file (`none` when missing or empty).  The cache is used only
when caching is enabled, the snapshot exists, its timestamp parses, and the
age in hours is strictly below the timeout; every other path refetches and
overwrites the snapshot with `{timestamp: now, data: result}`. -/
def get_ticket_data (fetch_data_from_api : List Ticket) (now : ℚ)
    (api_cache : Option ApiSnapshot) (use_cache : Bool)
    (cache_timeout_hours : ℚ) : FetchResult :=
  let refetch : FetchResult :=
    { data := fetch_data_from_api,
      cache := some { stamp := CacheStamp.parsed now, data := fetch_data_from_api },
      fetched := true }
  match api_cache with
  | some cache =>
    if use_cache then
      match cache.stamp with
      | CacheStamp.parsed t =>
        if (now - t) / 3600 < cache_timeout_hours then
          { data := cache.data, cache := some cache, fetched := false }
        else refetch
      | _ => refetch
    else refetch
  | none => refetch

/-! ### Harness definitions for the cache invariant -/

/-- Does a stored geo-cache entry carry coordinates? -/
def entry_has_coords : GeoEntry → Bool
  | GeoEntry.legacy _ _ => true
  | GeoEntry.modern coords _ _ => coords.isSome
  | GeoEntry.malformed => false

/-- Is this cache slot a 3-field entry with its coordinates present? -/
def is_modern_with_coords : Option GeoEntry → Bool
  | some (GeoEntry.modern (some _) _ _) => true
  | _ => false

/-- Run the resolver on a sequence of addresses, threading the cache. -/
def resolve_addresses (geolocator : String → Option Coords) :
    List String → GeoCache → GeoCache
  | [], geo_cache => geo_cache
  | a :: rest, geo_cache =>
    resolve_addresses geolocator rest (get_coordinates_extended a geo_cache geolocator).cache


/-! ### Claim theorems -/

/-- C1: for an address not present in the geo-cache, the resolver geocodes
the three variants in fixed priority order (regional qualifier, alternate
locale qualifier, bare address); the first variant that yields a location
wins, its coordinates are cached as `(coords, false, absent)` and returned
immediately, and no further variant or fallback query is issued. -/
theorem c1_variant_priority (address : String) (geo_cache : GeoCache)
    (g : String → Option Coords) (c : Coords)
    (hmiss : geo_cache address = none) :
    (g (address ++ ", South Tyrol, Italy") = some c →
      get_coordinates_extended address geo_cache g =
        { coords := some c, isApprox := false, ortsteil := none,
          cache := cacheInsert geo_cache address (GeoEntry.modern (some c) false none),
          calls := [address ++ ", South Tyrol, Italy"] }) ∧
    (g (address ++ ", South Tyrol, Italy") = none →
      g (address ++ ", Südtirol, Italien") = some c →
      get_coordinates_extended address geo_cache g =
        { coords := some c, isApprox := false, ortsteil := none,
          cache := cacheInsert geo_cache address (GeoEntry.modern (some c) false none),
          calls := [address ++ ", South Tyrol, Italy", address ++ ", Südtirol, Italien"] }) ∧
    (g (address ++ ", South Tyrol, Italy") = none →
      g (address ++ ", Südtirol, Italien") = none →
      g address = some c →
      get_coordinates_extended address geo_cache g =
        { coords := some c, isApprox := false, ortsteil := none,
          cache := cacheInsert geo_cache address (GeoEntry.modern (some c) false none),
          calls := [address ++ ", South Tyrol, Italy", address ++ ", Südtirol, Italien",
                    address] }) := by
  refine ⟨fun h1 => ?_, fun h1 h2 => ?_, fun h1 h2 h3 => ?_⟩
  · simp [get_coordinates_extended, hmiss, geocode_fresh, variants_of, try_variants, h1]
  · simp [get_coordinates_extended, hmiss, geocode_fresh, variants_of, try_variants, h1, h2]
  · simp [get_coordinates_extended, hmiss, geocode_fresh, variants_of, try_variants, h1, h2, h3]

/-- Witness for C1: a concrete miss that succeeds on the first variant. -/
theorem c1_variant_priority_witness :
    get_coordinates_extended "Hauptstrasse 1" (fun _ => none)
      (fun q => if q = "Hauptstrasse 1, South Tyrol, Italy" then some ((46 : ℚ), 11) else none) =
      { coords := some ((46 : ℚ), 11), isApprox := false, ortsteil := none,
        cache := cacheInsert (fun _ => none) "Hauptstrasse 1"
          (GeoEntry.modern (some ((46 : ℚ), 11)) false none),
        calls := ["Hauptstrasse 1, South Tyrol, Italy"] } :=
  (c1_variant_priority "Hauptstrasse 1" (fun _ => none)
    (fun q => if q = "Hauptstrasse 1, South Tyrol, Italy" then some ((46 : ℚ), 11) else none)
    ((46 : ℚ), 11) rfl).1 (by decide)

/-- C2: a legacy two-field cache entry `(lat, lon)` is returned as those
coordinates with `isApproximate = false` and no locality, without any
geocoding call, and is rewritten in place to the three-field form
`(coords, false, absent)`; a later resolution of the same address (with any
geolocator) returns the upgraded entry and leaves the cache unchanged. -/
theorem c2_legacy_upgrade (address : String) (lat lon : ℚ) (geo_cache : GeoCache)
    (g g2 : String → Option Coords)
    (h : geo_cache address = some (GeoEntry.legacy lat lon)) :
    get_coordinates_extended address geo_cache g =
      { coords := some (lat, lon), isApprox := false, ortsteil := none,
        cache := cacheInsert geo_cache address
          (GeoEntry.modern (some (lat, lon)) false none),
        calls := [] } ∧
    get_coordinates_extended address
        (cacheInsert geo_cache address (GeoEntry.modern (some (lat, lon)) false none)) g2 =
      { coords := some (lat, lon), isApprox := false, ortsteil := none,
        cache := cacheInsert geo_cache address
          (GeoEntry.modern (some (lat, lon)) false none),
        calls := [] } := by
  constructor
  · simp [get_coordinates_extended, h]
  · simp [get_coordinates_extended, cacheInsert]

/-- Witness for C2: a concrete legacy entry is upgraded exactly once. -/
theorem c2_legacy_upgrade_witness :
    get_coordinates_extended "Via Roma 1"
        (fun k => if k = "Via Roma 1" then some (GeoEntry.legacy 46 11) else none)
        (fun _ => none) =
      { coords := some ((46 : ℚ), (11 : ℚ)), isApprox := false, ortsteil := none,
        cache := cacheInsert
          (fun k => if k = "Via Roma 1" then some (GeoEntry.legacy 46 11) else none)
          "Via Roma 1" (GeoEntry.modern (some ((46 : ℚ), (11 : ℚ))) false none),
        calls := [] } ∧
    get_coordinates_extended "Via Roma 1"
        (cacheInsert
          (fun k => if k = "Via Roma 1" then some (GeoEntry.legacy 46 11) else none)
          "Via Roma 1" (GeoEntry.modern (some ((46 : ℚ), (11 : ℚ))) false none))
        (fun _ => none) =
      { coords := some ((46 : ℚ), (11 : ℚ)), isApprox := false, ortsteil := none,
        cache := cacheInsert
          (fun k => if k = "Via Roma 1" then some (GeoEntry.legacy 46 11) else none)
          "Via Roma 1" (GeoEntry.modern (some ((46 : ℚ), (11 : ℚ))) false none),
        calls := [] } :=
  c2_legacy_upgrade "Via Roma 1" 46 11
    (fun k => if k = "Via Roma 1" then some (GeoEntry.legacy 46 11) else none)
    (fun _ => none) (fun _ => none) (by decide)

/-- Frame property of the cache-miss path: only the resolved address's slot
can change. -/
theorem geocode_fresh_frame (address : String) (geo_cache : GeoCache)
    (g : String → Option Coords) (k : String) (hk : k ≠ address) :
    (geocode_fresh address geo_cache g).cache k = geo_cache k := by
  unfold geocode_fresh
  split
  · simp [cacheInsert, hk]
  · split
    · split
      · rfl
      · dsimp only
        split
        · simp [cacheInsert, hk]
        · rfl
    · rfl

/-- C9: one resolver call modifies at most the cache slot of the resolved
address; every other key keeps its previous value (in particular, keys
present before are present and unchanged, and no other key is added). -/
theorem c9_resolver_frame (address : String) (geo_cache : GeoCache)
    (g : String → Option Coords) (k : String) (hk : k ≠ address) :
    (get_coordinates_extended address geo_cache g).cache k = geo_cache k := by
  unfold get_coordinates_extended
  split
  · simp [cacheInsert, hk]
  · rfl
  · exact geocode_fresh_frame _ _ _ _ hk
  · exact geocode_fresh_frame _ _ _ _ hk

/-- Witness for C9: resolving one address leaves an unrelated key alone. -/
theorem c9_resolver_frame_witness :
    (get_coordinates_extended "Via Roma 1"
        (fun k => if k = "Andere Strasse 2" then some (GeoEntry.legacy 1 2) else none)
        (fun _ => some (5, 6))).cache "Andere Strasse 2" =
      some (GeoEntry.legacy 1 2) :=
  c9_resolver_frame "Via Roma 1"
    (fun k => if k = "Andere Strasse 2" then some (GeoEntry.legacy 1 2) else none)
    (fun _ => some (5, 6)) "Andere Strasse 2" (by decide)

/-- C3 (amended): for an uncached address with a comma whose text after the
last comma is nonempty, when all three direct variants fail but geocoding
"{locality}, South Tyrol, Italy" succeeds, the resolver returns and caches
`(coords, true, locality)`, and a ticket with that address within the radius
appears in the warning list with reason "approximate" carrying that
locality.  An empty derived locality (trailing comma) is falsy under the
source's `if ortsteil:` guard and skips the fallback instead. -/
theorem c3_locality_fallback (t : Ticket) (geo_cache : GeoCache)
    (g : String → Option Coords) (dist : Coords → Coords → ℚ)
    (center : Coords) (radius : ℚ) (language : String) (loc : String) (c : Coords)
    (hmiss : geo_cache t.address = none)
    (hcity : extract_city t.address = some loc)
    (hne : loc ≠ "")
    (h1 : g (t.address ++ ", South Tyrol, Italy") = none)
    (h2 : g (t.address ++ ", Südtirol, Italien") = none)
    (h3 : g t.address = none)
    (hloc : g (loc ++ ", South Tyrol, Italy") = some c)
    (hin : dist center c ≤ radius) :
    get_coordinates_extended t.address geo_cache g =
      { coords := some c, isApprox := true, ortsteil := some loc,
        cache := cacheInsert geo_cache t.address (GeoEntry.modern (some c) true (some loc)),
        calls := [t.address ++ ", South Tyrol, Italy", t.address ++ ", Südtirol, Italien",
                  t.address, loc ++ ", South Tyrol, Italy"] } ∧
    (process_tickets_to_markers g dist center radius language [t] geo_cache).warnings =
      [{ ticket_id := t.id, customer_name := t.customerName, address := t.address,
         reason := "approximate", ortsteil := some loc }] := by
  have hres : get_coordinates_extended t.address geo_cache g =
      { coords := some c, isApprox := true, ortsteil := some loc,
        cache := cacheInsert geo_cache t.address (GeoEntry.modern (some c) true (some loc)),
        calls := [t.address ++ ", South Tyrol, Italy", t.address ++ ", Südtirol, Italien",
                  t.address, loc ++ ", South Tyrol, Italy"] } := by
    simp [get_coordinates_extended, hmiss, geocode_fresh, variants_of, try_variants,
      h1, h2, h3, hcity, hne, hloc]
  refine ⟨hres, ?_⟩
  simp [process_tickets_to_markers, hres, hin]

/-- Witness for C3: "Via Roma 1, Merano" fails all variants, the locality
query for "Merano" succeeds, and the in-radius ticket gets an "approximate"
warning. -/
theorem c3_locality_fallback_witness :
    get_coordinates_extended "Via Roma 1, Merano" (fun _ => none)
        (fun q => if q = "Merano, South Tyrol, Italy" then some ((46 : ℚ), 11) else none) =
      { coords := some ((46 : ℚ), 11), isApprox := true, ortsteil := some "Merano",
        cache := cacheInsert (fun _ => none) "Via Roma 1, Merano"
          (GeoEntry.modern (some ((46 : ℚ), 11)) true (some "Merano")),
        calls := ["Via Roma 1, Merano, South Tyrol, Italy",
                  "Via Roma 1, Merano, Südtirol, Italien",
                  "Via Roma 1, Merano", "Merano, South Tyrol, Italy"] } ∧
    (process_tickets_to_markers
        (fun q => if q = "Merano, South Tyrol, Italy" then some ((46 : ℚ), 11) else none)
        (fun _ _ => 0) ((46 : ℚ), 11) 10 "de"
        [{ id := "42", address := "Via Roma 1, Merano", customerName := "K",
           title := "T", status := "offen" }]
        (fun _ => none)).warnings =
      [{ ticket_id := "42", customer_name := "K", address := "Via Roma 1, Merano",
         reason := "approximate", ortsteil := some "Merano" }] :=
  c3_locality_fallback
    { id := "42", address := "Via Roma 1, Merano", customerName := "K",
      title := "T", status := "offen" }
    (fun _ => none)
    (fun q => if q = "Merano, South Tyrol, Italy" then some ((46 : ℚ), 11) else none)
    (fun _ _ => 0) ((46 : ℚ), 11) 10 "de" "Merano" ((46 : ℚ), 11)
    rfl (by decide) (by decide) (by decide) (by decide) (by decide) (by decide) (by decide)

/-- Counterexample to C3 as stated: for the trailing-comma address
"Via Roma 1," the derived locality is the empty string, and even though the
query "" ++ ", South Tyrol, Italy" would succeed while every direct variant
fails, the resolver skips the locality fallback (Python `if ortsteil:`
truthiness), returns not-found, writes no cache entry, and the ticket gets a
"not_found" warning instead of an "approximate" one. -/
theorem c3_trailing_comma_counterexample :
    extract_city "Via Roma 1," = some "" ∧
    (fun q => if q = ", South Tyrol, Italy" then some ((46 : ℚ), 11) else none)
        ("" ++ ", South Tyrol, Italy") = some ((46 : ℚ), 11) ∧
    (get_coordinates_extended "Via Roma 1," (fun _ => none)
        (fun q => if q = ", South Tyrol, Italy" then some ((46 : ℚ), 11) else none)).coords
      = none ∧
    (get_coordinates_extended "Via Roma 1," (fun _ => none)
        (fun q => if q = ", South Tyrol, Italy" then some ((46 : ℚ), 11) else none)).isApprox
      = false ∧
    (get_coordinates_extended "Via Roma 1," (fun _ => none)
        (fun q => if q = ", South Tyrol, Italy" then some ((46 : ℚ), 11) else none)).cache
        "Via Roma 1," = none ∧
    (process_tickets_to_markers
        (fun q => if q = ", South Tyrol, Italy" then some ((46 : ℚ), 11) else none)
        (fun _ _ => 0) ((0 : ℚ), 0) 10 "de"
        [{ id := "9", address := "Via Roma 1,", customerName := "K", title := "T",
           status := "offen" }]
        (fun _ => none)).warnings =
      [{ ticket_id := "9", customer_name := "K", address := "Via Roma 1,",
         reason := "not_found", ortsteil := none }] :=
  ⟨by decide, by decide, by decide, by decide, by decide, by decide⟩

/-- C4: for an uncached address where no variant succeeds and the locality
fallback also fails — or no locality could be used for the fallback, either
because the address has no comma or because the text after the last comma is
empty (a trailing comma, falsy under the source's `if ortsteil:` guard) —
the resolver returns not-found — no coordinates, not approximate, no
locality — and the geo-cache is left unmodified. -/
theorem c4_not_found_no_write (address : String) (geo_cache : GeoCache)
    (g : String → Option Coords)
    (hmiss : geo_cache address = none)
    (h1 : g (address ++ ", South Tyrol, Italy") = none)
    (h2 : g (address ++ ", Südtirol, Italien") = none)
    (h3 : g address = none)
    (hfb : ∀ loc, extract_city address = some loc → loc ≠ "" →
      g (loc ++ ", South Tyrol, Italy") = none) :
    (get_coordinates_extended address geo_cache g).coords = none ∧
    (get_coordinates_extended address geo_cache g).isApprox = false ∧
    (get_coordinates_extended address geo_cache g).ortsteil = none ∧
    (get_coordinates_extended address geo_cache g).cache = geo_cache := by
  have htv : try_variants g (variants_of address) =
      ([address ++ ", South Tyrol, Italy", address ++ ", Südtirol, Italien", address],
        none) := by
    simp [variants_of, try_variants, h1, h2, h3]
  cases hc : extract_city address with
  | none =>
    refine ⟨?_, ?_, ?_, ?_⟩ <;>
      simp [get_coordinates_extended, hmiss, geocode_fresh, htv, hc]
  | some loc =>
    by_cases hne : loc = ""
    · subst hne
      refine ⟨?_, ?_, ?_, ?_⟩ <;>
        simp [get_coordinates_extended, hmiss, geocode_fresh, htv, hc]
    · have hl := hfb loc hc hne
      refine ⟨?_, ?_, ?_, ?_⟩ <;>
        simp [get_coordinates_extended, hmiss, geocode_fresh, htv, hc, hne, hl]

/-- Witness for C4: a trailing-comma address whose variants all fail leaves
the (empty) cache untouched and returns not-found, even under a geolocator
that would answer the never-issued empty-locality query. -/
theorem c4_not_found_no_write_witness :
    (get_coordinates_extended "Via Roma 1," (fun _ => none)
        (fun q => if q = ", South Tyrol, Italy" then some ((46 : ℚ), 11)
          else none)).coords = none ∧
    (get_coordinates_extended "Via Roma 1," (fun _ => none)
        (fun q => if q = ", South Tyrol, Italy" then some ((46 : ℚ), 11)
          else none)).isApprox = false ∧
    (get_coordinates_extended "Via Roma 1," (fun _ => none)
        (fun q => if q = ", South Tyrol, Italy" then some ((46 : ℚ), 11)
          else none)).ortsteil = none ∧
    (get_coordinates_extended "Via Roma 1," (fun _ => none)
        (fun q => if q = ", South Tyrol, Italy" then some ((46 : ℚ), 11)
          else none)).cache = (fun _ => none) :=
  c4_not_found_no_write "Via Roma 1," (fun _ => none)
    (fun q => if q = ", South Tyrol, Italy" then some ((46 : ℚ), 11) else none)
    rfl (by decide) (by decide) (by decide)
    (fun loc h hne => by
      rw [show extract_city "Via Roma 1," = some "" from by decide] at h
      injection h with h2
      exact absurd h2.symm hne)

/-- C5: a ticket whose address resolves to coordinates yields a marker if
and only if the great-circle distance from the center is at most the radius;
a resolved ticket strictly farther than the radius yields neither a marker
nor a warning entry. -/
theorem c5_radius_filter (t : Ticket) (geo_cache : GeoCache)
    (g : String → Option Coords) (dist : Coords → Coords → ℚ)
    (center : Coords) (radius : ℚ) (language : String) (c : Coords)
    (hres : (get_coordinates_extended t.address geo_cache g).coords = some c) :
    ((process_tickets_to_markers g dist center radius language [t] geo_cache).markers ≠ []
        ↔ dist center c ≤ radius) ∧
    (radius < dist center c →
      (process_tickets_to_markers g dist center radius language [t] geo_cache).markers = [] ∧
      (process_tickets_to_markers g dist center radius language [t] geo_cache).warnings = []) := by
  by_cases hd : dist center c ≤ radius
  · refine ⟨⟨fun _ => hd, fun _ => ?_⟩, fun hgt => absurd hd (not_le.mpr hgt)⟩
    simp [process_tickets_to_markers, hres, hd]
  · refine ⟨⟨fun hne => ?_, fun hle => absurd hle hd⟩, fun _ => ?_⟩
    · exact absurd (by simp [process_tickets_to_markers, hres, hd]) hne
    · constructor <;> simp [process_tickets_to_markers, hres, hd]

/-- Witness for C5: a cached resolved ticket at distance 1 with radius 0 is
dropped silently. -/
theorem c5_radius_filter_witness :
    ((process_tickets_to_markers (fun _ => none) (fun _ _ => 1) ((0 : ℚ), 0) 0 "de"
        [{ id := "7", address := "Via Roma 1", customerName := "K",
           title := "T", status := "offen" }]
        (fun k => if k = "Via Roma 1" then
          some (GeoEntry.modern (some ((46 : ℚ), 11)) false none) else none)).markers ≠ []
      ↔ (fun _ _ => (1 : ℚ)) ((0 : ℚ), (0 : ℚ)) ((46 : ℚ), (11 : ℚ)) ≤ 0) ∧
    ((0 : ℚ) < (fun _ _ => (1 : ℚ)) ((0 : ℚ), (0 : ℚ)) ((46 : ℚ), (11 : ℚ)) →
      (process_tickets_to_markers (fun _ => none) (fun _ _ => 1) ((0 : ℚ), 0) 0 "de"
        [{ id := "7", address := "Via Roma 1", customerName := "K",
           title := "T", status := "offen" }]
        (fun k => if k = "Via Roma 1" then
          some (GeoEntry.modern (some ((46 : ℚ), 11)) false none) else none)).markers = [] ∧
      (process_tickets_to_markers (fun _ => none) (fun _ _ => 1) ((0 : ℚ), 0) 0 "de"
        [{ id := "7", address := "Via Roma 1", customerName := "K",
           title := "T", status := "offen" }]
        (fun k => if k = "Via Roma 1" then
          some (GeoEntry.modern (some ((46 : ℚ), 11)) false none) else none)).warnings = []) :=
  c5_radius_filter
    { id := "7", address := "Via Roma 1", customerName := "K", title := "T",
      status := "offen" }
    (fun k => if k = "Via Roma 1" then
      some (GeoEntry.modern (some ((46 : ℚ), 11)) false none) else none)
    (fun _ => none) (fun _ _ => 1) ((0 : ℚ), 0) 0 "de" ((46 : ℚ), 11) (by decide)

/-- C6: a ticket that yields a marker gets the approximate color whenever
resolution was approximate, regardless of status; otherwise the color comes
from the normalised status (lower-cased, spaces stripped, substring match in
priority order erledigt > bearbeitung > offen, mapped to green / orange /
red), and any status matching none of them yields the default color. -/
theorem c6_marker_color (t : Ticket) (geo_cache : GeoCache)
    (g : String → Option Coords) (dist : Coords → Coords → ℚ)
    (center : Coords) (radius : ℚ) (language : String) (c : Coords)
    (hres : (get_coordinates_extended t.address geo_cache g).coords = some c)
    (hin : dist center c ≤ radius) :
    (process_tickets_to_markers g dist center radius language [t] geo_cache).markers.map
        Marker.color =
      [get_marker_color t (get_coordinates_extended t.address geo_cache g).isApprox] ∧
    get_marker_color t true = APPROXIMATE_MARKER_COLOR ∧
    (containsSubstr (py_remove_spaces (py_lower (py_strip t.status))) "erledigt" = true →
      get_marker_color t false = "green") ∧
    (containsSubstr (py_remove_spaces (py_lower (py_strip t.status))) "erledigt" = false →
      containsSubstr (py_remove_spaces (py_lower (py_strip t.status))) "bearbeitung" = true →
      get_marker_color t false = "orange") ∧
    (containsSubstr (py_remove_spaces (py_lower (py_strip t.status))) "erledigt" = false →
      containsSubstr (py_remove_spaces (py_lower (py_strip t.status))) "bearbeitung" = false →
      containsSubstr (py_remove_spaces (py_lower (py_strip t.status))) "offen" = true →
      get_marker_color t false = "red") ∧
    (containsSubstr (py_remove_spaces (py_lower (py_strip t.status))) "erledigt" = false →
      containsSubstr (py_remove_spaces (py_lower (py_strip t.status))) "bearbeitung" = false →
      containsSubstr (py_remove_spaces (py_lower (py_strip t.status))) "offen" = false →
      get_marker_color t false = DEFAULT_MARKER_COLOR) := by
  refine ⟨?_, by simp [get_marker_color], fun h1 => ?_, fun h1 h2 => ?_,
    fun h1 h2 h3 => ?_, fun h1 h2 h3 => ?_⟩
  · simp [process_tickets_to_markers, hres, hin]
  · simp [get_marker_color, normalize_status, h1, assoc_get, STATUS_COLOR]
  · simp [get_marker_color, normalize_status, h1, h2, assoc_get, STATUS_COLOR]
  · simp [get_marker_color, normalize_status, h1, h2, h3, assoc_get, STATUS_COLOR]
  · simp [get_marker_color, normalize_status, h1, h2, h3, assoc_get, STATUS_COLOR,
      DEFAULT_MARKER_COLOR]

/-- Witness for C6: a non-approximate cached hit with status
"In Bearbeitung" produces exactly one marker whose color is the
in-progress color. -/
theorem c6_marker_color_witness :
    (process_tickets_to_markers (fun _ => none) (fun _ _ => 0) ((0 : ℚ), 0) 0 "de"
        [{ id := "42", address := "Via Roma 1", customerName := "K", title := "T",
           status := "In Bearbeitung" }]
        (fun k => if k = "Via Roma 1" then
          some (GeoEntry.modern (some ((46 : ℚ), 11)) false none) else none)).markers.map
        Marker.color =
      [get_marker_color
        { id := "42", address := "Via Roma 1", customerName := "K", title := "T",
          status := "In Bearbeitung" } false] ∧
    get_marker_color
        { id := "42", address := "Via Roma 1", customerName := "K", title := "T",
          status := "In Bearbeitung" } false = "orange" :=
  ⟨(c6_marker_color
      { id := "42", address := "Via Roma 1", customerName := "K", title := "T",
        status := "In Bearbeitung" }
      (fun k => if k = "Via Roma 1" then
        some (GeoEntry.modern (some ((46 : ℚ), 11)) false none) else none)
      (fun _ => none) (fun _ _ => 0) ((0 : ℚ), 0) 0 "de" ((46 : ℚ), 11)
      (by decide) (by decide)).1,
   (c6_marker_color
      { id := "42", address := "Via Roma 1", customerName := "K", title := "T",
        status := "In Bearbeitung" }
      (fun k => if k = "Via Roma 1" then
        some (GeoEntry.modern (some ((46 : ℚ), 11)) false none) else none)
      (fun _ => none) (fun _ _ => 0) ((0 : ℚ), 0) 0 "de" ((46 : ℚ), 11)
      (by decide) (by decide)).2.2.2.1 (by decide) (by decide)⟩

/-- C7: with caching enabled, a snapshot with a parseable timestamp strictly
younger than the timeout is returned unchanged and not overwritten; every
other case — age exactly the timeout or older, malformed timestamp, missing
timestamp, or no snapshot at all — performs a fresh fetch and overwrites the
snapshot with the current time and the fetched data. -/
theorem c7_api_cache_policy (fetch : List Ticket) (now tq timeout : ℚ)
    (snap : ApiSnapshot) (api_cache : Option ApiSnapshot) :
    (api_cache = some snap → snap.stamp = CacheStamp.parsed tq →
      (now - tq) / 3600 < timeout →
      get_ticket_data fetch now api_cache true timeout =
        { data := snap.data, cache := some snap, fetched := false }) ∧
    (api_cache = some snap → snap.stamp = CacheStamp.parsed tq →
      timeout ≤ (now - tq) / 3600 →
      get_ticket_data fetch now api_cache true timeout =
        { data := fetch, cache := some { stamp := CacheStamp.parsed now, data := fetch },
          fetched := true }) ∧
    (api_cache = some snap → snap.stamp = CacheStamp.malformed →
      get_ticket_data fetch now api_cache true timeout =
        { data := fetch, cache := some { stamp := CacheStamp.parsed now, data := fetch },
          fetched := true }) ∧
    (api_cache = some snap → snap.stamp = CacheStamp.missing →
      get_ticket_data fetch now api_cache true timeout =
        { data := fetch, cache := some { stamp := CacheStamp.parsed now, data := fetch },
          fetched := true }) ∧
    (api_cache = none →
      get_ticket_data fetch now api_cache true timeout =
        { data := fetch, cache := some { stamp := CacheStamp.parsed now, data := fetch },
          fetched := true }) := by
  refine ⟨?_, ?_, ?_, ?_, ?_⟩
  · intro hc hs hlt; subst hc; simp [get_ticket_data, hs, hlt]
  · intro hc hs hge; subst hc; simp [get_ticket_data, hs, not_lt.mpr hge]
  · intro hc hs; subst hc; simp [get_ticket_data, hs]
  · intro hc hs; subst hc; simp [get_ticket_data, hs]
  · intro hc; subst hc; simp [get_ticket_data]

/-- Witness for C7: a snapshot stamped right now with a one hour timeout is
served from the cache without being overwritten. -/
theorem c7_api_cache_policy_witness :
    get_ticket_data [] 0
        (some { stamp := CacheStamp.parsed 0,
                data := [{ id := "1", address := "A", customerName := "K",
                           title := "T", status := "offen" }] }) true 1 =
      { data := [{ id := "1", address := "A", customerName := "K",
                   title := "T", status := "offen" }],
        cache := some { stamp := CacheStamp.parsed 0,
                        data := [{ id := "1", address := "A", customerName := "K",
                                   title := "T", status := "offen" }] },
        fetched := false } :=
  (c7_api_cache_policy [] 0 0 1
    { stamp := CacheStamp.parsed 0,
      data := [{ id := "1", address := "A", customerName := "K",
                 title := "T", status := "offen" }] }
    (some { stamp := CacheStamp.parsed 0,
            data := [{ id := "1", address := "A", customerName := "K",
                       title := "T", status := "offen" }] })).1 rfl rfl (by simp)

/-- When every ticket's address hits the cache in the three-field form, the
marker builder issues no geocoding call and leaves the cache unchanged. -/
theorem process_all_cached (g : String → Option Coords) (dist : Coords → Coords → ℚ)
    (center : Coords) (radius : ℚ) (language : String) :
    ∀ (data : List Ticket) (geo_cache : GeoCache),
      (∀ tk ∈ data, ∃ cd a o, geo_cache tk.address = some (GeoEntry.modern cd a o)) →
      (process_tickets_to_markers g dist center radius language data geo_cache).calls = [] ∧
      (process_tickets_to_markers g dist center radius language data geo_cache).cache =
        geo_cache := by
  intro data
  induction data with
  | nil => intro geo_cache _; exact ⟨rfl, rfl⟩
  | cons tk rest ih =>
    intro geo_cache h
    obtain ⟨cd, a, o, hc⟩ := h tk (List.mem_cons_self _ _)
    have hrest : ∀ x ∈ rest, ∃ cd a o, geo_cache x.address = some (GeoEntry.modern cd a o) :=
      fun x hx => h x (List.mem_cons_of_mem _ hx)
    have hr : get_coordinates_extended tk.address geo_cache g =
        { coords := cd, isApprox := a, ortsteil := o, cache := geo_cache, calls := [] } := by
      simp [get_coordinates_extended, hc]
    obtain ⟨ih1, ih2⟩ := ih geo_cache hrest
    cases cd with
    | none =>
      exact ⟨by simp [process_tickets_to_markers, hr, ih1],
             by simp [process_tickets_to_markers, hr, ih2]⟩
    | some cc =>
      by_cases hd : dist center cc ≤ radius
      · exact ⟨by simp [process_tickets_to_markers, hr, hd, ih1],
               by simp [process_tickets_to_markers, hr, hd, ih2]⟩
      · exact ⟨by simp [process_tickets_to_markers, hr, hd, ih1],
               by simp [process_tickets_to_markers, hr, hd, ih2]⟩

/-- C8: when every ticket's address is already cached in the upgraded
three-field form, the marker builder makes no geocoding call, leaves the
cache unchanged, and a second run on the resulting state returns the
identical result — the builder is a deterministic function of tickets,
center, radius, cache and language. -/
theorem c8_idempotent_no_calls (g : String → Option Coords) (dist : Coords → Coords → ℚ)
    (center : Coords) (radius : ℚ) (language : String) (data : List Ticket)
    (geo_cache : GeoCache)
    (h : ∀ tk ∈ data, ∃ cd a o, geo_cache tk.address = some (GeoEntry.modern cd a o)) :
    (process_tickets_to_markers g dist center radius language data geo_cache).calls = [] ∧
    (process_tickets_to_markers g dist center radius language data geo_cache).cache =
      geo_cache ∧
    process_tickets_to_markers g dist center radius language data
        (process_tickets_to_markers g dist center radius language data geo_cache).cache =
      process_tickets_to_markers g dist center radius language data geo_cache := by
  obtain ⟨h1, h2⟩ := process_all_cached g dist center radius language data geo_cache h
  exact ⟨h1, h2, by rw [h2]⟩

/-- Witness for C8: one fully cached ticket, no calls, stable cache, and an
identical second run. -/
theorem c8_idempotent_no_calls_witness :
    (process_tickets_to_markers (fun _ => none) (fun _ _ => 0) ((0 : ℚ), 0) 0 "de"
        [{ id := "42", address := "Via Roma 1", customerName := "K", title := "T",
           status := "offen" }]
        (fun k => if k = "Via Roma 1" then
          some (GeoEntry.modern (some ((46 : ℚ), 11)) false none) else none)).calls = [] ∧
    (process_tickets_to_markers (fun _ => none) (fun _ _ => 0) ((0 : ℚ), 0) 0 "de"
        [{ id := "42", address := "Via Roma 1", customerName := "K", title := "T",
           status := "offen" }]
        (fun k => if k = "Via Roma 1" then
          some (GeoEntry.modern (some ((46 : ℚ), 11)) false none) else none)).cache =
      (fun k => if k = "Via Roma 1" then
        some (GeoEntry.modern (some ((46 : ℚ), 11)) false none) else none) ∧
    process_tickets_to_markers (fun _ => none) (fun _ _ => 0) ((0 : ℚ), 0) 0 "de"
        [{ id := "42", address := "Via Roma 1", customerName := "K", title := "T",
           status := "offen" }]
        ((process_tickets_to_markers (fun _ => none) (fun _ _ => 0) ((0 : ℚ), 0) 0 "de"
          [{ id := "42", address := "Via Roma 1", customerName := "K", title := "T",
             status := "offen" }]
          (fun k => if k = "Via Roma 1" then
            some (GeoEntry.modern (some ((46 : ℚ), 11)) false none) else none)).cache) =
      process_tickets_to_markers (fun _ => none) (fun _ _ => 0) ((0 : ℚ), 0) 0 "de"
        [{ id := "42", address := "Via Roma 1", customerName := "K", title := "T",
           status := "offen" }]
        (fun k => if k = "Via Roma 1" then
          some (GeoEntry.modern (some ((46 : ℚ), 11)) false none) else none) :=
  c8_idempotent_no_calls (fun _ => none) (fun _ _ => 0) ((0 : ℚ), 0) 0 "de"
    [{ id := "42", address := "Via Roma 1", customerName := "K", title := "T",
       status := "offen" }]
    (fun k => if k = "Via Roma 1" then
      some (GeoEntry.modern (some ((46 : ℚ), 11)) false none) else none)
    (by
      intro tk htk
      rw [List.mem_singleton.mp htk]
      exact ⟨some ((46 : ℚ), 11), false, none, by decide⟩)

/-- Every cache slot the cache-miss path touches is either unchanged or a
three-field entry with coordinates present. -/
theorem geocode_fresh_write (address : String) (geo_cache : GeoCache)
    (g : String → Option Coords) (k : String) :
    (geocode_fresh address geo_cache g).cache k = geo_cache k ∨
    is_modern_with_coords ((geocode_fresh address geo_cache g).cache k) = true := by
  unfold geocode_fresh
  split
  · by_cases hk : k = address
    · subst hk; right; simp [cacheInsert, is_modern_with_coords]
    · left; simp [cacheInsert, hk]
  · split
    · split
      · left; rfl
      · dsimp only
        split
        · by_cases hk : k = address
          · subst hk; right; simp [cacheInsert, is_modern_with_coords]
          · left; simp [cacheInsert, hk]
        · left; rfl
    · left; rfl

/-- Every cache slot a resolver call touches is either unchanged or a
three-field entry with coordinates present. -/
theorem resolve_cache_write (address : String) (geo_cache : GeoCache)
    (g : String → Option Coords) (k : String) :
    (get_coordinates_extended address geo_cache g).cache k = geo_cache k ∨
    is_modern_with_coords ((get_coordinates_extended address geo_cache g).cache k) = true := by
  unfold get_coordinates_extended
  split
  · by_cases hk : k = address
    · subst hk; right; simp [cacheInsert, is_modern_with_coords]
    · left; simp [cacheInsert, hk]
  · left; rfl
  · exact geocode_fresh_write _ _ _ _
  · exact geocode_fresh_write _ _ _ _

/-- Any sequence of resolver calls preserves "every cache entry carries
coordinates". -/
theorem resolve_addresses_preserve (g : String → Option Coords) :
    ∀ (addrs : List String) (geo_cache : GeoCache),
      (∀ x ex, geo_cache x = some ex → entry_has_coords ex = true) →
      ∀ k e, resolve_addresses g addrs geo_cache k = some e → entry_has_coords e = true := by
  intro addrs
  induction addrs with
  | nil => intro geo_cache h k e he; exact h k e he
  | cons a rest ih =>
    intro geo_cache h k e he
    refine ih (get_coordinates_extended a geo_cache g).cache ?_ k e he
    intro k2 e2 he2
    rcases resolve_cache_write a geo_cache g k2 with hsame | hmod
    · exact h k2 e2 (hsame ▸ he2)
    · rw [he2] at hmod
      cases e2 with
      | legacy la lo => simp [entry_has_coords]
      | malformed => simp [is_modern_with_coords] at hmod
      | modern mc b o =>
        cases mc with
        | none => simp [is_modern_with_coords] at hmod
        | some cc => simp [entry_has_coords]

/-- C10: the resolver only ever writes three-field entries whose coordinates
are present (it never caches a not-found result), so if every entry of the
initial geo-cache carries coordinates, that invariant still holds after any
sequence of resolver calls. -/
theorem c10_cache_coords_invariant (g : String → Option Coords) (geo_cache : GeoCache)
    (address k : String) (addrs : List String) (k2 : String) (e : GeoEntry)
    (hinv : ∀ x ex, geo_cache x = some ex → entry_has_coords ex = true) :
    ((get_coordinates_extended address geo_cache g).cache k = geo_cache k ∨
      is_modern_with_coords ((get_coordinates_extended address geo_cache g).cache k) = true) ∧
    (resolve_addresses g addrs geo_cache k2 = some e → entry_has_coords e = true) :=
  ⟨resolve_cache_write address geo_cache g k,
   fun he => resolve_addresses_preserve g addrs geo_cache hinv k2 e he⟩

/-- Witness for C10: starting from the empty cache, one resolve either left
a slot alone or wrote a with-coordinates entry, and after resolving a
sequence every stored entry still carries coordinates. -/
theorem c10_cache_coords_invariant_witness :
    ((get_coordinates_extended "Via Roma 1" (fun _ => none)
        (fun _ => some ((46 : ℚ), 11))).cache "Via Roma 1" =
          (fun _ => none : GeoCache) "Via Roma 1" ∨
      is_modern_with_coords ((get_coordinates_extended "Via Roma 1" (fun _ => none)
        (fun _ => some ((46 : ℚ), 11))).cache "Via Roma 1") = true) ∧
    (resolve_addresses (fun _ => some ((46 : ℚ), 11)) ["Via Roma 1"] (fun _ => none)
        "Andere Strasse 2" = some GeoEntry.malformed →
      entry_has_coords GeoEntry.malformed = true) :=
  c10_cache_coords_invariant (fun _ => some ((46 : ℚ), 11)) (fun _ => none)
    "Via Roma 1" "Via Roma 1" ["Via Roma 1"] "Andere Strasse 2" GeoEntry.malformed
    (fun _ _ h => Option.noConfusion h)

end TicketMap
